import Mathlib

/-!
Shallow embedding of the poll store of `src/db.py` (a SQLite-backed
vote-persistence layer) and proofs of the specified properties.

The database state is the contents of the two tables created by
`SCHEMA_SQL`:
  * `vote_options (option_id INTEGER PRIMARY KEY, label TEXT NOT NULL)`
  * `votes (user_id INTEGER PRIMARY KEY, option_id INTEGER NOT NULL,
     created_at TEXT ..., FOREIGN KEY(option_id) REFERENCES vote_options)`
Each table is modelled as a list of rows in insertion order.  The
`created_at` column is informational only (a timestamp filled in by the
database, never read by any query of `db.py`), so it is not part of the
model.

Each Python function of `db.py` opens a connection against the database
file, runs its SQL and commits; it is modelled as a function from the
pre-state to a result paired with the post-state.  A raised exception is
modelled by an `Except.error` result:
  * `ValueError` ("At least 2 non-empty vote options are required.")
    is `DBError.InvalidInput`;
  * `sqlite3.IntegrityError: UNIQUE constraint failed: votes.user_id`
    (the `user_id` primary key) is `DBError.DuplicateVote`;
  * `sqlite3.IntegrityError: FOREIGN KEY constraint failed`
    (the `option_id` foreign key, with `PRAGMA foreign_keys = ON`)
    is `DBError.UnknownOption`.
SQLite checks the primary-key/unique constraints of an `INSERT` before
its foreign-key constraints, so when both are violated the statement
fails with the `UNIQUE constraint failed` error; `cast_vote` below
mirrors that order.  A failed statement writes nothing, so an error
leaves the state unchanged.
-/

inductive DBError where
  | InvalidInput
  | DuplicateVote
  | UnknownOption
deriving DecidableEq

deriving instance DecidableEq for Except

/-- One row of the `vote_options` table: `(option_id, label)`. -/
abbrev OptionRow := Nat × String

/-- One row of the `votes` table: `(user_id, option_id)`. -/
abbrev VoteRow := Nat × Nat

/-- The database state: the rows of the two tables of `SCHEMA_SQL`,
in insertion order. -/
structure DBState where
  options : List OptionRow
  votes : List VoteRow
deriving DecidableEq

/-- Mirrors the `VoteStandingRow` dataclass of `db.py`. -/
structure VoteStandingRow where
  option_id : Nat
  label : String
  votes : Nat
deriving DecidableEq

/-- `init_db` runs `SCHEMA_SQL` (`CREATE TABLE IF NOT EXISTS ...`): on a
fresh database file it produces the two empty tables, and on an existing
database it changes nothing.  This is the state of a fresh database. -/
def init_db : DBState := { options := [], votes := [] }

/-- Python's `str.strip()`: remove whitespace from both ends of the
string.  (Stated over the string's character list with structural
recursion, so that the kernel can evaluate it on literals.) -/
def pyStrip (s : String) : String :=
  { data :=
      ((s.data.dropWhile Char.isWhitespace).reverse.dropWhile
        Char.isWhitespace).reverse }

/-- The list comprehension of `set_vote_options`:
`[l.strip() for l in labels if l and l.strip()]` — keep the labels that
are non-empty and have a non-empty strip, and strip them. -/
def filtered_labels (labels : List String) : List String :=
  (labels.filter (fun l => !(l == "") && !(pyStrip l == ""))).map pyStrip

/-- `enumerate(labels_list, start=n)`: pair each label with its 1-based
position, feeding the `INSERT INTO vote_options(option_id, label)` loop. -/
def numberFrom (n : Nat) : List String → List OptionRow
  | [] => []
  | label :: rest => (n, label) :: numberFrom (n + 1) rest

/-- `set_vote_options(db_path, labels)`: filter the labels; if fewer than
2 remain raise `ValueError` (before touching the database); otherwise, in
one transaction, `DELETE FROM votes`, `DELETE FROM vote_options`, and
insert the filtered labels with ids `1..N`; return `N`. -/
def set_vote_options (s : DBState) (labels : List String) :
    Except DBError Nat × DBState :=
  let labels_list := filtered_labels labels
  if labels_list.length < 2 then
    (Except.error DBError.InvalidInput, s)
  else
    (Except.ok labels_list.length,
     { options := numberFrom 1 labels_list, votes := [] })

/-- `list_vote_options`: `SELECT option_id, label FROM vote_options ORDER
BY option_id ASC` — a read-only query; the `ORDER BY` is a stable sort on
`option_id`. -/
def list_vote_options (s : DBState) : List OptionRow × DBState :=
  (List.insertionSort (fun a b => a.1 ≤ b.1) s.options, s)

/-- `user_has_voted`: `SELECT 1 FROM votes WHERE user_id = ?` returns a
row iff some vote row has this `user_id`. -/
def user_has_voted (s : DBState) (user_id : Nat) : Bool × DBState :=
  (s.votes.any (fun v => v.1 == user_id), s)

/-- `option_exists`: `SELECT 1 FROM vote_options WHERE option_id = ?`
returns a row iff some option row has this `option_id`. -/
def option_exists (s : DBState) (option_id : Nat) : Bool × DBState :=
  (s.options.any (fun o => o.1 == option_id), s)

/-- `cast_vote(db_path, user_id, option_id)`: a single
`INSERT INTO votes(user_id, option_id) VALUES(?, ?)` with
`PRAGMA foreign_keys = ON`.  The insert fails with
`UNIQUE constraint failed: votes.user_id` if a row with this `user_id`
exists (checked first), else with `FOREIGN KEY constraint failed` if no
option row has this `option_id`; otherwise the row is appended. -/
def cast_vote (s : DBState) (user_id option_id : Nat) :
    Except DBError Unit × DBState :=
  if s.votes.any (fun v => v.1 == user_id) then
    (Except.error DBError.DuplicateVote, s)
  else if s.options.any (fun o => o.1 == option_id) then
    (Except.ok (), { s with votes := s.votes ++ [(user_id, option_id)] })
  else
    (Except.error DBError.UnknownOption, s)

/-- `clear_votes`: `DROP TABLE IF EXISTS votes` followed by re-creating
the `votes` table with exactly the schema of `SCHEMA_SQL`.  The options
table is untouched, and the recreated votes table is empty; since the
recreated schema is identical, the state model carries no other
difference. -/
def clear_votes (s : DBState) : Except DBError Unit × DBState :=
  (Except.ok (), { s with votes := [] })

/-- Modelled from the spec: `clearVotes` as a pure row-level deletion
(`delete all vote rows`), the behaviour the spec's open question says
implementers should assume; used to compare with `clear_votes`. -/
def clearVotesRowDeletion (s : DBState) : Except DBError Unit × DBState :=
  (Except.ok (), { s with votes := s.votes.filter (fun _ => false) })

/-- `get_vote_standings`: `SELECT o.option_id, o.label,
COALESCE(COUNT(v.user_id), 0) FROM vote_options o LEFT JOIN votes v ON
v.option_id = o.option_id GROUP BY o.option_id, o.label ORDER BY
o.option_id ASC`.  `option_id` is the primary key of `vote_options`, so
each group is a single option row and its count is the number of vote
rows referencing it (zero when the left join finds none, via
`COALESCE`/`COUNT` of the `NULL` row). -/
def get_vote_standings (s : DBState) : List VoteStandingRow × DBState :=
  ((List.insertionSort (fun a b => a.1 ≤ b.1) s.options).map
    (fun o =>
      { option_id := o.1, label := o.2,
        votes := (s.votes.filter (fun v => v.2 == o.1)).length }), s)

/-- `get_total_votes`: `SELECT COUNT(*) FROM votes`. -/
def get_total_votes (s : DBState) : Nat × DBState :=
  (s.votes.length, s)

/-- `get_vote_label`: `SELECT label FROM vote_options WHERE option_id = ?`,
`None` when no row matches. -/
def get_vote_label (s : DBState) (option_id : Nat) :
    Option String × DBState :=
  ((s.options.find? (fun o => o.1 == option_id)).map (fun o => o.2), s)

/-!  Traces of mutating operations.  The three state-changing operations
of `db.py` are `set_vote_options`, `cast_vote` and `clear_votes`; the
remaining functions only run `SELECT` queries and return the state
unchanged, so sequences of these three operations reach every database
state the program can produce from a fresh database. -/

/-- A mutating call into `db.py`. -/
inductive DBOp where
  | setOptions (labels : List String)
  | castVote (user_id option_id : Nat)
  | clearVotes
deriving DecidableEq

/-- The state after one mutating call (an error leaves the state as it
was, which the operations' definitions already express). -/
def step (s : DBState) : DBOp → DBState
  | DBOp.setOptions labels => (set_vote_options s labels).2
  | DBOp.castVote u o => (cast_vote s u o).2
  | DBOp.clearVotes => (clear_votes s).2

/-- The state after a sequence of mutating calls. -/
def run (s : DBState) (ops : List DBOp) : DBState := ops.foldl step s

/-- Whether `cast_vote` succeeds on `s` for this user and option. -/
def castOk (s : DBState) (u o : Nat) : Bool :=
  match (cast_vote s u o).1 with
  | Except.ok _ => true
  | Except.error _ => false

/-- Number of successful `cast_vote` calls by user `u` along a trace. -/
def successfulCastsBy (u : Nat) : DBState → List DBOp → Nat
  | _, [] => 0
  | s, op :: rest =>
    (match op with
      | DBOp.castVote u' o => if u' == u && castOk s u' o then 1 else 0
      | _ => 0) + successfulCastsBy u (step s op) rest

/-- Operations that start a new poll generation (`defineOptions`). -/
def startsGeneration : DBOp → Bool
  | DBOp.setOptions _ => true
  | _ => false

/-- Operations that delete vote rows (a new generation or a vote clear). -/
def resetsVotes : DBOp → Bool
  | DBOp.setOptions _ => true
  | DBOp.clearVotes => true
  | DBOp.castVote _ _ => false

/-- Option ids are dense: exactly `1..N` in stored order. -/
def DenseIds (s : DBState) : Prop :=
  s.options.map Prod.fst = List.range' 1 s.options.length

/-- Invariant of every reachable state: dense option ids, at most one
vote row per user, and every vote row referencing a stored option. -/
def StoreInv (s : DBState) : Prop :=
  DenseIds s
  ∧ (s.votes.map Prod.fst).Nodup
  ∧ ∀ v ∈ s.votes, v.2 ∈ s.options.map Prod.fst

/-! Helper lemmas. -/

theorem bool_eq_false {b : Bool} (h : ¬b = true) : b = false := by
  cases hb : b
  · rfl
  · exact absurd hb h

theorem set_vote_options_eq (s : DBState) (labels : List String) :
    set_vote_options s labels
      = if (filtered_labels labels).length < 2 then
          (Except.error DBError.InvalidInput, s)
        else
          (Except.ok (filtered_labels labels).length,
           { options := numberFrom 1 (filtered_labels labels),
             votes := [] }) := rfl

theorem length_numberFrom (n : Nat) (labels : List String) :
    (numberFrom n labels).length = labels.length := by
  induction labels generalizing n with
  | nil => rfl
  | cons l rest ih => simp [numberFrom, ih]

theorem numberFrom_map_fst (n : Nat) (labels : List String) :
    (numberFrom n labels).map Prod.fst = List.range' n labels.length := by
  induction labels generalizing n with
  | nil => rfl
  | cons l rest ih => simp [numberFrom, List.range'_succ, ih]

theorem numberFrom_map_snd (n : Nat) (labels : List String) :
    (numberFrom n labels).map Prod.snd = labels := by
  induction labels generalizing n with
  | nil => rfl
  | cons l rest ih => simp [numberFrom, ih]

theorem cast_vote_of_voted (s : DBState) (u o : Nat)
    (h : (user_has_voted s u).1 = true) :
    cast_vote s u o = (Except.error DBError.DuplicateVote, s) := by
  have h' : s.votes.any (fun v => v.1 == u) = true := h
  simp [cast_vote, h']

theorem cast_vote_unknown (s : DBState) (u o : Nat)
    (h1 : (user_has_voted s u).1 = false)
    (h2 : (option_exists s o).1 = false) :
    cast_vote s u o = (Except.error DBError.UnknownOption, s) := by
  have h1' : s.votes.any (fun v => v.1 == u) = false := h1
  have h2' : s.options.any (fun x => x.1 == o) = false := h2
  simp [cast_vote, h1', h2']

theorem cast_vote_success (s : DBState) (u o : Nat)
    (h1 : (user_has_voted s u).1 = false)
    (h2 : (option_exists s o).1 = true) :
    cast_vote s u o =
      (Except.ok (), { s with votes := s.votes ++ [(u, o)] }) := by
  have h1' : s.votes.any (fun v => v.1 == u) = false := h1
  have h2' : s.options.any (fun x => x.1 == o) = true := h2
  simp [cast_vote, h1', h2']

theorem castOk_iff (s : DBState) (u o : Nat) :
    castOk s u o = true ↔
      (user_has_voted s u).1 = false ∧ (option_exists s o).1 = true := by
  cases hv : s.votes.any (fun v => v.1 == u) <;>
    cases ho : s.options.any (fun x => x.1 == o) <;>
      simp [castOk, cast_vote, user_has_voted, option_exists, hv, ho]

theorem option_exists_iff (s : DBState) (o : Nat) :
    (option_exists s o).1 = true ↔ o ∈ s.options.map Prod.fst := by
  simp only [option_exists, List.any_eq_true, beq_iff_eq, List.mem_map]

theorem user_has_voted_iff (s : DBState) (u : Nat) :
    (user_has_voted s u).1 = true ↔ u ∈ s.votes.map Prod.fst := by
  simp only [user_has_voted, List.any_eq_true, beq_iff_eq, List.mem_map]

theorem step_options_not_set (s : DBState) (op : DBOp)
    (h : startsGeneration op = false) : (step s op).options = s.options := by
  cases op with
  | setOptions labels => simp [startsGeneration] at h
  | castVote u o =>
    by_cases hv : (user_has_voted s u).1 = true
    · rw [show step s (DBOp.castVote u o) = (cast_vote s u o).2 from rfl,
        cast_vote_of_voted s u o hv]
    · have hv' : (user_has_voted s u).1 = false := by
        cases hb : (user_has_voted s u).1
        · rfl
        · exact absurd hb hv
      by_cases ho : (option_exists s o).1 = true
      · rw [show step s (DBOp.castVote u o) = (cast_vote s u o).2 from rfl,
          cast_vote_success s u o hv' ho]
      · have ho' : (option_exists s o).1 = false := by
          cases hb : (option_exists s o).1
          · rfl
          · exact absurd hb ho
        rw [show step s (DBOp.castVote u o) = (cast_vote s u o).2 from rfl,
          cast_vote_unknown s u o hv' ho']
  | clearVotes => rfl

theorem voted_step (s : DBState) (op : DBOp) (u : Nat)
    (hop : resetsVotes op = false)
    (h : (user_has_voted s u).1 = true) :
    (user_has_voted (step s op) u).1 = true := by
  cases op with
  | setOptions labels => simp [resetsVotes] at hop
  | clearVotes => simp [resetsVotes] at hop
  | castVote u' o =>
    by_cases hv : (user_has_voted s u').1 = true
    · rw [show step s (DBOp.castVote u' o) = (cast_vote s u' o).2 from rfl,
        cast_vote_of_voted s u' o hv]
      exact h
    · have hv' : (user_has_voted s u').1 = false := by
        cases hb : (user_has_voted s u').1
        · rfl
        · exact absurd hb hv
      by_cases ho : (option_exists s o).1 = true
      · rw [show step s (DBOp.castVote u' o) = (cast_vote s u' o).2 from rfl,
          cast_vote_success s u' o hv' ho]
        have h' : s.votes.any (fun v => v.1 == u) = true := h
        show (s.votes ++ [(u', o)]).any (fun v => v.1 == u) = true
        simp [List.any_append, h']
      · have ho' : (option_exists s o).1 = false := by
          cases hb : (option_exists s o).1
          · rfl
          · exact absurd hb ho
        rw [show step s (DBOp.castVote u' o) = (cast_vote s u' o).2 from rfl,
          cast_vote_unknown s u' o hv' ho']
        exact h

theorem voted_after_castOk (s : DBState) (u o : Nat)
    (h : castOk s u o = true) :
    (user_has_voted (step s (DBOp.castVote u o)) u).1 = true := by
  obtain ⟨h1, h2⟩ := (castOk_iff s u o).mp h
  rw [show step s (DBOp.castVote u o) = (cast_vote s u o).2 from rfl,
    cast_vote_success s u o h1 h2]
  show (s.votes ++ [(u, o)]).any (fun v => v.1 == u) = true
  simp [List.any_append]

theorem successfulCastsBy_eq_zero (u : Nat) :
    ∀ ops : List DBOp, (∀ op ∈ ops, resetsVotes op = false) →
      ∀ s : DBState, (user_has_voted s u).1 = true →
        successfulCastsBy u s ops = 0 := by
  intro ops
  induction ops with
  | nil => intro _ s _; rfl
  | cons op rest ih =>
    intro hops s h
    have hop : resetsVotes op = false := hops op (List.mem_cons_self op rest)
    have hrest : ∀ x ∈ rest, resetsVotes x = false := fun x hx =>
      hops x (List.mem_cons_of_mem op hx)
    have htail : successfulCastsBy u (step s op) rest = 0 :=
      ih hrest (step s op) (voted_step s op u hop h)
    cases op with
    | setOptions labels => simp [resetsVotes] at hop
    | clearVotes => simp [resetsVotes] at hop
    | castVote u' o =>
      simp only [successfulCastsBy, htail, Nat.add_zero]
      by_cases hu : u' = u
      · subst hu
        have hc : castOk s u' o = false := by
          cases hb : castOk s u' o
          · rfl
          · obtain ⟨h1, _⟩ := (castOk_iff s u' o).mp hb
            rw [h] at h1
            exact absurd h1 (by simp)
        simp [hc]
      · simp [hu]

theorem successfulCastsBy_le_one (u : Nat) :
    ∀ ops : List DBOp, (∀ op ∈ ops, resetsVotes op = false) →
      ∀ s : DBState, successfulCastsBy u s ops ≤ 1 := by
  intro ops
  induction ops with
  | nil => intro _ s; simp [successfulCastsBy]
  | cons op rest ih =>
    intro hops s
    have hop : resetsVotes op = false := hops op (List.mem_cons_self op rest)
    have hrest : ∀ x ∈ rest, resetsVotes x = false := fun x hx =>
      hops x (List.mem_cons_of_mem op hx)
    cases op with
    | setOptions labels => simp [resetsVotes] at hop
    | clearVotes => simp [resetsVotes] at hop
    | castVote u' o =>
      simp only [successfulCastsBy]
      by_cases hc : (u' == u && castOk s u' o) = true
      · obtain ⟨hu, hk⟩ := Bool.and_eq_true_iff.mp hc
        have hu' : u' = u := eq_of_beq hu
        have hzero : successfulCastsBy u (step s (DBOp.castVote u' o)) rest = 0 := by
          apply successfulCastsBy_eq_zero u rest hrest
          subst hu'
          exact voted_after_castOk s u' o hk
        simp [hc, hzero]
      · have hc' : (u' == u && castOk s u' o) = false := by
          cases hb : (u' == u && castOk s u' o)
          · rfl
          · exact absurd hb hc
        have := ih hrest (step s (DBOp.castVote u' o))
        simpa [hc'] using this

theorem storeInv_init : StoreInv init_db := by
  refine ⟨rfl, List.nodup_nil, ?_⟩
  intro v hv
  simp [init_db] at hv

theorem storeInv_step (s : DBState) (op : DBOp) (h : StoreInv s) :
    StoreInv (step s op) := by
  obtain ⟨hd, hn, hfk⟩ := h
  cases op with
  | setOptions labels =>
    show StoreInv (set_vote_options s labels).2
    unfold set_vote_options
    by_cases hl : (filtered_labels labels).length < 2
    · simp only [hl, if_true]
      exact ⟨hd, hn, hfk⟩
    · simp only [hl, if_false]
      refine ⟨?_, List.nodup_nil, ?_⟩
      · show (numberFrom 1 (filtered_labels labels)).map Prod.fst
          = List.range' 1 (numberFrom 1 (filtered_labels labels)).length
        rw [numberFrom_map_fst, length_numberFrom]
      · intro v hv
        simp at hv
  | castVote u o =>
    by_cases hv : (user_has_voted s u).1 = true
    · rw [show step s (DBOp.castVote u o) = (cast_vote s u o).2 from rfl,
        cast_vote_of_voted s u o hv]
      exact ⟨hd, hn, hfk⟩
    · have hv' : (user_has_voted s u).1 = false := by
        cases hb : (user_has_voted s u).1
        · rfl
        · exact absurd hb hv
      by_cases ho : (option_exists s o).1 = true
      · rw [show step s (DBOp.castVote u o) = (cast_vote s u o).2 from rfl,
          cast_vote_success s u o hv' ho]
        refine ⟨hd, ?_, ?_⟩
        · show ((s.votes ++ [(u, o)]).map Prod.fst).Nodup
          have hu : u ∉ s.votes.map Prod.fst := by
            intro hmem
            rw [← user_has_voted_iff] at hmem
            rw [hmem] at hv'
            exact absurd hv' (by simp)
          simp [List.nodup_append, hn, hu]
        · intro v hv2
          show v.2 ∈ s.options.map Prod.fst
          rcases List.mem_append.mp hv2 with hold | hnew
          · exact hfk v hold
          · have : v = (u, o) := by simpa using hnew
            subst this
            exact (option_exists_iff s o).mp ho
      · have ho' : (option_exists s o).1 = false := by
          cases hb : (option_exists s o).1
          · rfl
          · exact absurd hb ho
        rw [show step s (DBOp.castVote u o) = (cast_vote s u o).2 from rfl,
          cast_vote_unknown s u o hv' ho']
        exact ⟨hd, hn, hfk⟩
  | clearVotes =>
    refine ⟨hd, List.nodup_nil, ?_⟩
    intro v hv
    simp [step, clear_votes] at hv

theorem storeInv_run (s : DBState) (ops : List DBOp) (h : StoreInv s) :
    StoreInv (run s ops) := by
  induction ops generalizing s with
  | nil => exact h
  | cons op rest ih => exact ih (step s op) (storeInv_step s op h)

theorem denseIds_sorted (s : DBState) (h : DenseIds s) :
    List.Sorted (fun a b : OptionRow => a.1 ≤ b.1) s.options := by
  have hp : List.Pairwise (· < ·) (s.options.map Prod.fst) := by
    rw [h]
    exact List.pairwise_lt_range' 1 s.options.length
  have hp2 := List.pairwise_map.mp hp
  exact hp2.imp (fun hab => Nat.le_of_lt hab)

theorem denseIds_nodup (s : DBState) (h : DenseIds s) :
    (s.options.map Prod.fst).Nodup := by
  rw [h]
  exact List.nodup_range' 1 s.options.length

theorem sort_options_eq (s : DBState) (h : DenseIds s) :
    List.insertionSort (fun a b : OptionRow => a.1 ≤ b.1) s.options
      = s.options :=
  (denseIds_sorted s h).insertionSort_eq

theorem sum_map_add_fun {α : Type} (l : List α) (f g : α → Nat) :
    (l.map (fun a => f a + g a)).sum = (l.map f).sum + (l.map g).sum := by
  induction l with
  | nil => rfl
  | cons a t ih =>
    simp only [List.map_cons, List.sum_cons, ih]
    omega

theorem sum_map_indicator (a : Nat) (ids : List Nat) :
    (ids.map (fun i => if i = a then 1 else 0)).sum = ids.count a := by
  induction ids with
  | nil => rfl
  | cons i t ih =>
    by_cases h : i = a
    · simp [List.count_cons, h, ih]
      omega
    · simp [List.count_cons, h, ih]

theorem count_votes_total (opts : List OptionRow)
    (hids : (opts.map Prod.fst).Nodup) :
    ∀ votes : List VoteRow, (∀ v ∈ votes, v.2 ∈ opts.map Prod.fst) →
      (opts.map
        (fun o => (votes.filter (fun v => v.2 == o.1)).length)).sum
        = votes.length := by
  intro votes
  induction votes with
  | nil => intro _; simp
  | cons v vs ih =>
    intro hfk
    have hv : v.2 ∈ opts.map Prod.fst := hfk v (List.mem_cons_self v vs)
    have hvs : ∀ w ∈ vs, w.2 ∈ opts.map Prod.fst := fun w hw =>
      hfk w (List.mem_cons_of_mem v hw)
    have hsplit : (fun o : OptionRow =>
        ((v :: vs).filter (fun w => w.2 == o.1)).length)
        = fun o : OptionRow =>
            (if o.1 = v.2 then 1 else 0)
              + (vs.filter (fun w => w.2 == o.1)).length := by
      funext o
      by_cases h : v.2 = o.1
      · simp [List.filter_cons, h]
        omega
      · have h2 : ¬o.1 = v.2 := fun he => h he.symm
        simp [List.filter_cons, h, h2]
    rw [hsplit, sum_map_add_fun, ih hvs]
    have hone : (opts.map (fun o : OptionRow =>
        if o.1 = v.2 then 1 else 0)).sum = 1 := by
      have hcomp : (fun o : OptionRow => if o.1 = v.2 then 1 else 0)
          = (fun i => if i = v.2 then 1 else 0) ∘ Prod.fst := rfl
      rw [hcomp, ← List.map_map, sum_map_indicator]
      exact List.count_eq_one_of_mem hids hv
    rw [hone]
    simp [Nat.add_comm]

/-! Claims. -/

/-- Claim C1, counterexample: the claim says at most one `castVote(u, *)`
succeeds per poll generation. Starting from the generation created by
`defineOptions(["A", "B"])`, the trace `castVote(7, 1); clearVotes();
castVote(7, 2)` contains no `defineOptions` call (so it stays within one
generation), yet user 7 has two successful `castVote` calls: `clear_votes`
deletes the vote row of user 7 inside the same generation, so the
uniqueness key no longer blocks a second vote. -/
theorem C1_counterexample :
    (∀ op ∈ [DBOp.castVote 7 1, DBOp.clearVotes, DBOp.castVote 7 2],
        startsGeneration op = false)
    ∧ successfulCastsBy 7 ((set_vote_options init_db ["A", "B"]).2)
        [DBOp.castVote 7 1, DBOp.clearVotes, DBOp.castVote 7 2] = 2
    ∧ ¬ successfulCastsBy 7 ((set_vote_options init_db ["A", "B"]).2)
        [DBOp.castVote 7 1, DBOp.clearVotes, DBOp.castVote 7 2] ≤ 1 := by
  decide

/-- Claim C1 (amended): for every user `u`, at most one `castVote(u, *)`
call succeeds per poll generation as long as no `clearVotes` intervenes:
once a vote row exists for `u`, every `cast_vote` by `u` fails with
`DuplicateVote` before any row is written (the state is returned
unchanged), and along any sequence of operations containing neither
`defineOptions` nor `clearVotes` at most one `cast_vote` by `u`
succeeds.  The `user_id` primary key of the votes table is what produces
the `DuplicateVote` failure at insert time. -/
theorem C1_at_most_one_vote :
    (∀ (s : DBState) (u o : Nat), (user_has_voted s u).1 = true →
        cast_vote s u o = (Except.error DBError.DuplicateVote, s))
    ∧ (∀ (u : Nat) (ops : List DBOp) (s : DBState),
        (∀ op ∈ ops, resetsVotes op = false) →
          successfulCastsBy u s ops ≤ 1) := by
  constructor
  · exact cast_vote_of_voted
  · intro u ops s hops
    exact successfulCastsBy_le_one u ops hops s

/-- Claim C1 witness: user 7 has a vote row, so a second `cast_vote` by 7
fails with `DuplicateVote` and writes nothing, and along a cast-only
trace user 7 succeeds at most once. -/
theorem C1_at_most_one_vote_witness :
    ((user_has_voted { options := [(1, "A"), (2, "B")], votes := [(7, 1)] }
        7).1 = true
      ∧ cast_vote { options := [(1, "A"), (2, "B")], votes := [(7, 1)] } 7 2
          = (Except.error DBError.DuplicateVote,
             { options := [(1, "A"), (2, "B")], votes := [(7, 1)] }))
    ∧ ((∀ op ∈ [DBOp.castVote 7 2, DBOp.castVote 8 1],
          resetsVotes op = false)
      ∧ successfulCastsBy 7
          { options := [(1, "A"), (2, "B")], votes := [(7, 1)] }
          [DBOp.castVote 7 2, DBOp.castVote 8 1] ≤ 1) :=
  ⟨⟨by decide,
    C1_at_most_one_vote.1
      { options := [(1, "A"), (2, "B")], votes := [(7, 1)] } 7 2 (by decide)⟩,
   ⟨by decide,
    C1_at_most_one_vote.2 7 [DBOp.castVote 7 2, DBOp.castVote 8 1]
      { options := [(1, "A"), (2, "B")], votes := [(7, 1)] } (by decide)⟩⟩

/-- Claim C3, counterexample: the claim says `castVote` fails with
`UnknownOption` whenever `option_id` does not reference a current option.
In the state reached by `defineOptions(["A", "B"]); castVote(9, 1)`,
option 99 does not exist, yet `castVote(9, 99)` fails with
`DuplicateVote`: SQLite checks the `user_id` primary key before the
foreign key, so the duplicate-vote failure takes precedence. -/
theorem C3_counterexample :
    (option_exists (run init_db
        [DBOp.setOptions ["A", "B"], DBOp.castVote 9 1]) 99).1 = false
    ∧ cast_vote (run init_db
        [DBOp.setOptions ["A", "B"], DBOp.castVote 9 1]) 9 99
        = (Except.error DBError.DuplicateVote,
           run init_db [DBOp.setOptions ["A", "B"], DBOp.castVote 9 1]) := by
  decide

/-- Claim C3 (amended): `cast_vote` fails with `DuplicateVote` when a
vote row already exists for the user, fails with `UnknownOption` when the
option does not exist and no vote row exists for the user (the duplicate
check takes precedence when both fail), and the two failure kinds are
distinct, so the caller can distinguish them. -/
theorem C3_error_kinds :
    (∀ (s : DBState) (u o : Nat), (user_has_voted s u).1 = true →
        cast_vote s u o = (Except.error DBError.DuplicateVote, s))
    ∧ (∀ (s : DBState) (u o : Nat), (user_has_voted s u).1 = false →
        (option_exists s o).1 = false →
          cast_vote s u o = (Except.error DBError.UnknownOption, s))
    ∧ DBError.DuplicateVote ≠ DBError.UnknownOption :=
  ⟨cast_vote_of_voted, cast_vote_unknown, by decide⟩

/-- Claim C3 witness: a duplicate vote by user 4 yields `DuplicateVote`,
and a vote by fresh user 5 for missing option 3 yields `UnknownOption`. -/
theorem C3_error_kinds_witness :
    ((user_has_voted { options := [(1, "A")], votes := [(4, 1)] } 4).1 = true
      ∧ cast_vote { options := [(1, "A")], votes := [(4, 1)] } 4 1
          = (Except.error DBError.DuplicateVote,
             { options := [(1, "A")], votes := [(4, 1)] }))
    ∧ ((user_has_voted { options := [(1, "A")], votes := [] } 5).1 = false
      ∧ (option_exists { options := [(1, "A")], votes := [] } 3).1 = false
      ∧ cast_vote { options := [(1, "A")], votes := [] } 5 3
          = (Except.error DBError.UnknownOption,
             { options := [(1, "A")], votes := [] })) :=
  ⟨⟨by decide,
    C3_error_kinds.1 { options := [(1, "A")], votes := [(4, 1)] } 4 1
      (by decide)⟩,
   ⟨by decide, by decide,
    C3_error_kinds.2.1 { options := [(1, "A")], votes := [] } 5 3
      (by decide) (by decide)⟩⟩

/-- Claim C4: when fewer than 2 non-empty labels remain after stripping
whitespace and discarding empties, `set_vote_options` fails with
`InvalidInput` (the `ValueError`) and returns the state exactly as it
was, performing no mutation. -/
theorem C4_invalid_input (s : DBState) (labels : List String)
    (h : (filtered_labels labels).length < 2) :
    set_vote_options s labels = (Except.error DBError.InvalidInput, s) := by
  rw [set_vote_options_eq, if_pos h]

/-- Claim C4 witness: `defineOptions(["only one"])` on a state with prior
options and votes fails with `InvalidInput` and leaves it untouched. -/
theorem C4_invalid_input_witness :
    (filtered_labels ["only one"]).length < 2
    ∧ set_vote_options
        { options := [(1, "Pizza"), (2, "Tacos")], votes := [(42, 1)] }
        ["only one"]
        = (Except.error DBError.InvalidInput,
           { options := [(1, "Pizza"), (2, "Tacos")], votes := [(42, 1)] }) :=
  ⟨by decide,
   C4_invalid_input
     { options := [(1, "Pizza"), (2, "Tacos")], votes := [(42, 1)] }
     ["only one"] (by decide)⟩

/-- Claim C2: on every state satisfying the reachable-state invariant,
`get_vote_standings` returns exactly one row per option (including
options with zero votes) whose `(option_id, label)` pairs are exactly the
option table, in strictly ascending `option_id` order; each row's count
equals the number of distinct users whose vote row references that
option; and `get_total_votes` equals the sum of all standings counts. -/
theorem C2_tally_correct (s : DBState) (h : StoreInv s) :
    (get_vote_standings s).1.map (fun r => (r.option_id, r.label))
        = s.options
    ∧ List.Sorted (· < ·)
        ((get_vote_standings s).1.map (fun r => r.option_id))
    ∧ (∀ r ∈ (get_vote_standings s).1,
        r.votes
          = (((s.votes.filter (fun v => v.2 == r.option_id)).map
                Prod.fst).dedup).length)
    ∧ (get_total_votes s).1
        = ((get_vote_standings s).1.map (fun r => r.votes)).sum := by
  obtain ⟨hd, hn, hfk⟩ := h
  have hrows : (get_vote_standings s).1
      = s.options.map (fun o =>
          ({ option_id := o.1, label := o.2,
             votes := (s.votes.filter (fun v => v.2 == o.1)).length }
            : VoteStandingRow)) := by
    show (List.insertionSort (fun a b : OptionRow => a.1 ≤ b.1)
          s.options).map (fun o =>
            ({ option_id := o.1, label := o.2,
               votes := (s.votes.filter (fun v => v.2 == o.1)).length }
              : VoteStandingRow)) = _
    rw [sort_options_eq s hd]
  refine ⟨?_, ?_, ?_, ?_⟩
  · rw [hrows, List.map_map]
    exact List.map_id s.options
  · rw [hrows, List.map_map]
    have hfun : ((fun r : VoteStandingRow => r.option_id) ∘
        (fun o : OptionRow =>
          ({ option_id := o.1, label := o.2,
             votes := (s.votes.filter (fun v => v.2 == o.1)).length }
            : VoteStandingRow))) = Prod.fst := rfl
    rw [hfun, hd]
    exact List.pairwise_lt_range' 1 s.options.length
  · intro r hr
    rw [hrows] at hr
    obtain ⟨o, ho, rfl⟩ := List.mem_map.mp hr
    have hsub : ((s.votes.filter (fun v => v.2 == o.1)).map
        Prod.fst).Sublist (s.votes.map Prod.fst) :=
      (List.filter_sublist s.votes).map Prod.fst
    have hnd := hn.sublist hsub
    rw [hnd.dedup, List.length_map]
  · show s.votes.length = _
    have hfun : ((fun r : VoteStandingRow => r.votes) ∘
        (fun o : OptionRow =>
          ({ option_id := o.1, label := o.2,
             votes := (s.votes.filter (fun v => v.2 == o.1)).length }
            : VoteStandingRow)))
        = fun o : OptionRow =>
            (s.votes.filter (fun v => v.2 == o.1)).length := rfl
    rw [hrows, List.map_map, hfun,
      count_votes_total s.options (denseIds_nodup s hd) s.votes hfk]

/-- Claim C2 witness: the invariant and the tally properties hold at the
concrete state with options Pizza and Tacos and one vote by user 42. -/
theorem C2_tally_correct_witness :
    StoreInv { options := [(1, "Pizza"), (2, "Tacos")], votes := [(42, 1)] }
    ∧ ((get_vote_standings
          { options := [(1, "Pizza"), (2, "Tacos")],
            votes := [(42, 1)] }).1.map (fun r => (r.option_id, r.label))
          = [(1, "Pizza"), (2, "Tacos")]
      ∧ List.Sorted (· < ·)
          ((get_vote_standings
            { options := [(1, "Pizza"), (2, "Tacos")],
              votes := [(42, 1)] }).1.map (fun r => r.option_id))
      ∧ (∀ r ∈ (get_vote_standings
            { options := [(1, "Pizza"), (2, "Tacos")],
              votes := [(42, 1)] }).1,
          r.votes
            = ((((
                { options := [(1, "Pizza"), (2, "Tacos")],
                  votes := [(42, 1)] } : DBState).votes.filter
                  (fun v => v.2 == r.option_id)).map Prod.fst).dedup).length)
      ∧ (get_total_votes
          { options := [(1, "Pizza"), (2, "Tacos")],
            votes := [(42, 1)] }).1
          = ((get_vote_standings
              { options := [(1, "Pizza"), (2, "Tacos")],
                votes := [(42, 1)] }).1.map (fun r => r.votes)).sum) := by
  have hinv : StoreInv
      { options := [(1, "Pizza"), (2, "Tacos")], votes := [(42, 1)] } := by
    refine ⟨?_, by decide, by decide⟩
    unfold DenseIds
    decide
  exact ⟨hinv,
    C2_tally_correct
      { options := [(1, "Pizza"), (2, "Tacos")], votes := [(42, 1)] } hinv⟩

/-- Claim C5: a successful `set_vote_options` returns `N` (the number of
filtered labels), deletes every previous vote and option, and installs
the filtered labels with ids exactly `1..N` in submitted order; and after
every sequence of operations from a fresh database the option ids are the
dense range `1..N` with no gaps. -/
theorem C5_define_options :
    (∀ (s : DBState) (labels : List String),
        2 ≤ (filtered_labels labels).length →
          (set_vote_options s labels).1
              = Except.ok (filtered_labels labels).length
          ∧ ((set_vote_options s labels).2).votes = []
          ∧ ((set_vote_options s labels).2).options.map Prod.fst
              = List.range' 1 (filtered_labels labels).length
          ∧ ((set_vote_options s labels).2).options.map Prod.snd
              = filtered_labels labels)
    ∧ ∀ ops : List DBOp,
        (run init_db ops).options.map Prod.fst
          = List.range' 1 (run init_db ops).options.length := by
  constructor
  · intro s labels h
    have h' : ¬(filtered_labels labels).length < 2 := by omega
    rw [set_vote_options_eq, if_neg h']
    exact ⟨rfl, rfl, numberFrom_map_fst 1 (filtered_labels labels),
      numberFrom_map_snd 1 (filtered_labels labels)⟩
  · intro ops
    exact (storeInv_run init_db ops storeInv_init).1

/-- Claim C5 witness: `defineOptions(["Pizza", "Tacos"])` over a dirty
state returns 2 and installs ids 1, 2; and a concrete trace from a fresh
database has dense option ids. -/
theorem C5_define_options_witness :
    (2 ≤ (filtered_labels ["Pizza", "Tacos"]).length
      ∧ ((set_vote_options
            { options := [(9, "Old")], votes := [(5, 9)] }
            ["Pizza", "Tacos"]).1
            = Except.ok (filtered_labels ["Pizza", "Tacos"]).length
        ∧ ((set_vote_options
            { options := [(9, "Old")], votes := [(5, 9)] }
            ["Pizza", "Tacos"]).2).votes = []
        ∧ ((set_vote_options
            { options := [(9, "Old")], votes := [(5, 9)] }
            ["Pizza", "Tacos"]).2).options.map Prod.fst
            = List.range' 1 (filtered_labels ["Pizza", "Tacos"]).length
        ∧ ((set_vote_options
            { options := [(9, "Old")], votes := [(5, 9)] }
            ["Pizza", "Tacos"]).2).options.map Prod.snd
            = filtered_labels ["Pizza", "Tacos"]))
    ∧ (run init_db
        [DBOp.setOptions ["Pizza", "Tacos"],
         DBOp.castVote 42 1]).options.map Prod.fst
        = List.range' 1 (run init_db
            [DBOp.setOptions ["Pizza", "Tacos"],
             DBOp.castVote 42 1]).options.length :=
  ⟨⟨by decide,
    C5_define_options.1 { options := [(9, "Old")], votes := [(5, 9)] }
      ["Pizza", "Tacos"] (by decide)⟩,
   C5_define_options.2
     [DBOp.setOptions ["Pizza", "Tacos"], DBOp.castVote 42 1]⟩

/-- Claim C6, counterexample: the claim says a `castVote` targeting a
nonexistent option fails with `UnknownOption`.  In the state reached by
`defineOptions(["Pizza", "Tacos"]); castVote(7, 1)`, option 99 does not
exist, yet `castVote(7, 99)` does not fail with `UnknownOption`: user 7
already has a vote row, and the `user_id` primary key is checked before
the foreign key, so it fails with `DuplicateVote` instead. -/
theorem C6_counterexample :
    (option_exists (run init_db
        [DBOp.setOptions ["Pizza", "Tacos"], DBOp.castVote 7 1]) 99).1
        = false
    ∧ (cast_vote (run init_db
        [DBOp.setOptions ["Pizza", "Tacos"], DBOp.castVote 7 1]) 7 99).1
        ≠ Except.error DBError.UnknownOption
    ∧ (cast_vote (run init_db
        [DBOp.setOptions ["Pizza", "Tacos"], DBOp.castVote 7 1]) 7 99).1
        = Except.error DBError.DuplicateVote := by
  decide

/-- Claim C6 (amended): every vote row of every reachable state
references an option of the current generation; `cast_vote` succeeds
only if the option exists; a `cast_vote` targeting a nonexistent option
never succeeds and writes no row, and fails with `UnknownOption` whenever
the user does not already have a vote row (a duplicate vote is reported
as `DuplicateVote` first). -/
theorem C6_referential_integrity :
    (∀ ops : List DBOp, ∀ v ∈ (run init_db ops).votes,
        v.2 ∈ (run init_db ops).options.map Prod.fst)
    ∧ (∀ (s : DBState) (u o : Nat),
        (cast_vote s u o).1 = Except.ok () → (option_exists s o).1 = true)
    ∧ (∀ (s : DBState) (u o : Nat), (option_exists s o).1 = false →
        (cast_vote s u o).1 ≠ Except.ok () ∧ (cast_vote s u o).2 = s)
    ∧ (∀ (s : DBState) (u o : Nat), (option_exists s o).1 = false →
        (user_has_voted s u).1 = false →
          cast_vote s u o = (Except.error DBError.UnknownOption, s)) := by
  refine ⟨?_, ?_, ?_, ?_⟩
  · intro ops v hv
    exact (storeInv_run init_db ops storeInv_init).2.2 v hv
  · intro s u o h
    by_cases ho : (option_exists s o).1 = true
    · exact ho
    · have ho' := bool_eq_false ho
      by_cases hv : (user_has_voted s u).1 = true
      · rw [cast_vote_of_voted s u o hv] at h
        exact absurd h (by simp)
      · have hv' := bool_eq_false hv
        rw [cast_vote_unknown s u o hv' ho'] at h
        exact absurd h (by simp)
  · intro s u o ho
    by_cases hv : (user_has_voted s u).1 = true
    · rw [cast_vote_of_voted s u o hv]
      exact ⟨by simp, rfl⟩
    · have hv' := bool_eq_false hv
      rw [cast_vote_unknown s u o hv' ho]
      exact ⟨by simp, rfl⟩
  · intro s u o ho hv
    exact cast_vote_unknown s u o hv ho

/-- Claim C6 witness: concrete instantiations of the four parts, on the
trace `defineOptions(["Sushi", "Burgers"]); castVote(11, 2)` and on a
one-option state with missing option 9. -/
theorem C6_referential_integrity_witness :
    ((11, 2) ∈ (run init_db
        [DBOp.setOptions ["Sushi", "Burgers"], DBOp.castVote 11 2]).votes
      ∧ (11, 2).2 ∈ (run init_db
        [DBOp.setOptions ["Sushi", "Burgers"],
         DBOp.castVote 11 2]).options.map Prod.fst)
    ∧ ((cast_vote { options := [(1, "Sushi")], votes := [] } 12 1).1
        = Except.ok ()
      ∧ (option_exists { options := [(1, "Sushi")], votes := [] } 1).1
        = true)
    ∧ ((option_exists { options := [(1, "Sushi")], votes := [] } 9).1
        = false
      ∧ (cast_vote { options := [(1, "Sushi")], votes := [] } 12 9).1
          ≠ Except.ok ()
      ∧ (cast_vote { options := [(1, "Sushi")], votes := [] } 12 9).2
          = { options := [(1, "Sushi")], votes := [] }
      ∧ (user_has_voted { options := [(1, "Sushi")], votes := [] } 12).1
          = false
      ∧ cast_vote { options := [(1, "Sushi")], votes := [] } 12 9
          = (Except.error DBError.UnknownOption,
             { options := [(1, "Sushi")], votes := [] })) := by
  refine ⟨⟨by decide, ?_⟩, ⟨by decide, ?_⟩, ⟨by decide, ?_, ?_, by decide, ?_⟩⟩
  · exact C6_referential_integrity.1
      [DBOp.setOptions ["Sushi", "Burgers"], DBOp.castVote 11 2]
      (11, 2) (by decide)
  · exact C6_referential_integrity.2.1
      { options := [(1, "Sushi")], votes := [] } 12 1 (by decide)
  · exact (C6_referential_integrity.2.2.1
      { options := [(1, "Sushi")], votes := [] } 12 9 (by decide)).1
  · exact (C6_referential_integrity.2.2.1
      { options := [(1, "Sushi")], votes := [] } 12 9 (by decide)).2
  · exact C6_referential_integrity.2.2.2
      { options := [(1, "Sushi")], votes := [] } 12 9 (by decide) (by decide)

/-- Claim C7: for every prior state, `clear_votes` succeeds, deletes all
vote rows, leaves the option table completely unchanged, is idempotent
(clearing again is a no-op success), and is observably equal to the
spec-modelled pure row-level deletion. -/
theorem C7_clear_votes (s : DBState) :
    (clear_votes s).1 = Except.ok ()
    ∧ ((clear_votes s).2).votes = []
    ∧ ((clear_votes s).2).options = s.options
    ∧ clear_votes ((clear_votes s).2) = clear_votes s
    ∧ clear_votes s = clearVotesRowDeletion s := by
  refine ⟨rfl, rfl, rfl, rfl, ?_⟩
  unfold clear_votes clearVotesRowDeletion
  simp

/-- Claim C8: running `defineOptions(labels)` twice with the same valid
label list, with any operations (in particular any vote activity) in
between and from any prior state, ends in exactly the state of a single
call, whose vote set is empty. -/
theorem C8_idempotent_reset (labels : List String)
    (h : 2 ≤ (filtered_labels labels).length)
    (s : DBState) (mid : List DBOp) :
    run s ([DBOp.setOptions labels] ++ mid ++ [DBOp.setOptions labels])
      = (set_vote_options s labels).2
    ∧ ((set_vote_options s labels).2).votes = [] := by
  have h' : ¬(filtered_labels labels).length < 2 := by omega
  have hstep : ∀ t : DBState, step t (DBOp.setOptions labels)
      = { options := numberFrom 1 (filtered_labels labels), votes := [] } := by
    intro t
    show (set_vote_options t labels).2 = _
    rw [set_vote_options_eq, if_neg h']
  constructor
  · show List.foldl step s
        ([DBOp.setOptions labels] ++ mid ++ [DBOp.setOptions labels]) = _
    rw [List.foldl_append, List.foldl_append]
    simp only [List.foldl_cons, List.foldl_nil]
    rw [hstep, set_vote_options_eq, if_neg h']
  · rw [set_vote_options_eq, if_neg h']

/-- Claim C8 witness: two `defineOptions(["Sushi", "Salad"])` calls with
a vote in between, from a dirty state, equal the single call, with an
empty vote set. -/
theorem C8_idempotent_reset_witness :
    2 ≤ (filtered_labels ["Sushi", "Salad"]).length
    ∧ (run { options := [(1, "X")], votes := [(2, 1)] }
        ([DBOp.setOptions ["Sushi", "Salad"]] ++ [DBOp.castVote 3 1]
          ++ [DBOp.setOptions ["Sushi", "Salad"]])
        = (set_vote_options { options := [(1, "X")], votes := [(2, 1)] }
            ["Sushi", "Salad"]).2
      ∧ ((set_vote_options { options := [(1, "X")], votes := [(2, 1)] }
            ["Sushi", "Salad"]).2).votes = []) :=
  ⟨by decide,
   C8_idempotent_reset ["Sushi", "Salad"] (by decide)
     { options := [(1, "X")], votes := [(2, 1)] } [DBOp.castVote 3 1]⟩

/-- Claim C9: every read operation — `list_vote_options`,
`option_exists`, `user_has_voted`, `get_vote_standings`,
`get_total_votes` and `get_vote_label` — returns the state exactly
unchanged (they only run `SELECT` queries). -/
theorem C9_reads_pure (s : DBState) (u o : Nat) :
    (list_vote_options s).2 = s
    ∧ (option_exists s o).2 = s
    ∧ (user_has_voted s u).2 = s
    ∧ (get_vote_standings s).2 = s
    ∧ (get_total_votes s).2 = s
    ∧ (get_vote_label s o).2 = s :=
  ⟨rfl, rfl, rfl, rfl, rfl, rfl⟩

/-- Claim C10: `set_vote_options` requires no label distinctness: any
list whose filtered form has at least 2 labels is accepted, each filtered
label (duplicates included) is stored as its own option row, and the
stored option ids are pairwise distinct. -/
theorem C10_duplicate_labels (s : DBState) (labels : List String)
    (h : 2 ≤ (filtered_labels labels).length) :
    (set_vote_options s labels).1
        = Except.ok (filtered_labels labels).length
    ∧ ((set_vote_options s labels).2).options.map Prod.snd
        = filtered_labels labels
    ∧ (((set_vote_options s labels).2).options.map Prod.fst).Nodup := by
  have h' : ¬(filtered_labels labels).length < 2 := by omega
  rw [set_vote_options_eq, if_neg h']
  refine ⟨rfl, numberFrom_map_snd 1 (filtered_labels labels), ?_⟩
  show ((numberFrom 1 (filtered_labels labels)).map Prod.fst).Nodup
  rw [numberFrom_map_fst]
  exact List.nodup_range' 1 (filtered_labels labels).length

/-- Claim C10 witness: `defineOptions(["Tea", "Tea"])` is accepted and
stores two separate options with distinct ids 1 and 2, both labelled
Tea. -/
theorem C10_duplicate_labels_witness :
    2 ≤ (filtered_labels ["Tea", "Tea"]).length
    ∧ ((set_vote_options init_db ["Tea", "Tea"]).1
        = Except.ok (filtered_labels ["Tea", "Tea"]).length
      ∧ ((set_vote_options init_db ["Tea", "Tea"]).2).options.map Prod.snd
          = filtered_labels ["Tea", "Tea"]
      ∧ (((set_vote_options init_db
            ["Tea", "Tea"]).2).options.map Prod.fst).Nodup) :=
  ⟨by decide, C10_duplicate_labels init_db ["Tea", "Tea"] (by decide)⟩
